import Mathlib

/-!
# Verification of the anki-geography-maps territory analyzer and view framer

Shallow embedding of the core logic of the repository:

* `src/maps/territory_analyzer.py` — `TerritoryAnalyzer.analyze`,
  `TerritoryAnalysisResult.__post_init__`, `load_country_geometry`'s
  geometry-type check;
* `src/maps/renderer.py` — the exclave reduction and the area-based
  (`1/sqrt(fraction)`) view-bounds computation of `create_map`;
* `src/draw_map.py` — the buffer-factor view-bounds computation with
  aspect-ratio adjustment of `create_map`.

Numeric modelling: Python floats are modelled as exact rationals (`ℚ`)
except for the square-root based renderer formulas, which are modelled
over `ℝ` with `Real.sqrt`.  Shapely polygons are external inputs to this
code; the code only consumes their `.area`, `.centroid` and `.bounds`
attributes, so a polygon is embedded as a record of those observables.
-/

/-- One shapely polygon, as observed by the analyzed code: the code reads
only its area and its centroid (the renderer reads the bounding box, which
is passed to the bounds functions separately). -/
structure Polygon where
  area : ℚ
  centroid : ℚ × ℚ
deriving DecidableEq, Inhabited

/-- A geometry value of type `Union[Polygon, MultiPolygon]`, the input type
of `TerritoryAnalyzer.analyze`.  A `MultiPolygon` carries the list of its
constituent polygons (`geometry.geoms`). -/
inductive Geometry where
  | poly : Polygon → Geometry
  | multi : List Polygon → Geometry
deriving DecidableEq

/-- A raw geometry as decoded by `shapely.wkb.loads` in
`load_country_geometry`: it may be a `Polygon`, a `MultiPolygon`, or some
other shapely type (`Point`, `GeometryCollection`, ...), the latter modelled
by the `point` and `collection` constructors. -/
inductive RawGeometry where
  | poly : Polygon → RawGeometry
  | multi : List Polygon → RawGeometry
  | point : ℚ × ℚ → RawGeometry
  | collection : List RawGeometry → RawGeometry

/-- The exceptions the embedded pipeline can raise.
`geometryTypeError` embeds `raise TypeError("Expected Polygon or
MultiPolygon, ...")` in `load_country_geometry`
(territory_analyzer.py:122-125); `zeroDivisionError` embeds the Python
`ZeroDivisionError` raised by `(main_polygon_area / total_area) * 100.0`
(territory_analyzer.py:202) when `total_area` is zero; `indexError` embeds
the `IndexError` from `polygons[sorted_indices[0]]` on an empty
`MultiPolygon` (territory_analyzer.py:200).  `degenerateGeometryError` is
the typed error named by the specification's error taxonomy; no code path
of the repository produces it. -/
inductive AnalyzeError where
  | geometryTypeError
  | zeroDivisionError
  | indexError
  | degenerateGeometryError
deriving DecidableEq

/-- The `CountryGeometryType` enum (territory_analyzer.py:34-39). -/
inductive CountryGeometryType where
  | CONTINUOUS
  | ISLAND_NATION
  | HAS_EXCLAVE
deriving DecidableEq

/-- One entry of `separate_territories`: the dict
`{"area": ..., "percentage": ..., "centroid": ...}` built in
`TerritoryAnalyzer.analyze`. -/
structure TerritoryInfo where
  area : ℚ
  percentage : ℚ
  centroid : ℚ × ℚ
deriving DecidableEq, Inhabited

/-- The `TerritoryAnalysisResult` dataclass (territory_analyzer.py:42-73).
The field `max_distance_between_polygons_sq` holds the SQUARE of the
source's `max_distance_between_polygons` (the maximum pairwise Euclidean
centroid distance): the square root is irrational in general, and since
`sqrt` is strictly monotone with `sqrt 0 = 0`, the maximum of the distances
is determined by (and zero exactly when) the maximum of the squared
distances. -/
structure TerritoryAnalysisResult where
  country_name : String
  geometry_type : CountryGeometryType
  total_area : ℚ
  main_polygon_area : ℚ
  main_polygon_percentage : ℚ
  polygon_count : ℕ
  max_distance_between_polygons_sq : ℚ
  separate_territories : List TerritoryInfo
deriving DecidableEq

/-- Constructing a `TerritoryAnalysisResult` runs `__post_init__`
(territory_analyzer.py:69-73): if `main_polygon_area == 0.0` it is
silently replaced by `total_area`. -/
def mkTerritoryAnalysisResult (name : String) (gt : CountryGeometryType)
    (total mainArea mainPct : ℚ) (count : ℕ) (maxDistSq : ℚ)
    (terrs : List TerritoryInfo) : TerritoryAnalysisResult :=
  { country_name := name
    geometry_type := gt
    total_area := total
    main_polygon_area := if mainArea = 0 then total else mainArea
    main_polygon_percentage := mainPct
    polygon_count := count
    max_distance_between_polygons_sq := maxDistSq
    separate_territories := terrs }

/-- Embedding of `total_area = sum(areas)` where `areas = [p.area for p in polygons]`
(territory_analyzer.py:195-196). -/
def totalArea (ps : List Polygon) : ℚ :=
  (ps.map Polygon.area).sum

/-- The ordering used to list polygons by area, largest first: `p` precedes
`q` when `q.area ≤ p.area`. -/
def areaDesc (p q : Polygon) : Prop := q.area ≤ p.area

instance : DecidableRel areaDesc := fun p q =>
  inferInstanceAs (Decidable (q.area ≤ p.area))

instance : IsTotal Polygon areaDesc :=
  ⟨fun p q => (le_total q.area p.area).elim Or.inl Or.inr⟩

instance : IsTrans Polygon areaDesc :=
  ⟨fun _ _ _ h h' => le_trans h' h⟩

/-- Embedding of `sorted_indices = np.argsort(areas)[::-1]`, applied to the polygon
list: the polygons listed in descending order of area
(territory_analyzer.py:197).  `np.argsort`'s default sort is unstable, so
the order among equal-area polygons is unspecified in the source; any
area-descending permutation is a faithful embedding. -/
def sortedPolys (ps : List Polygon) : List Polygon :=
  ps.insertionSort areaDesc

/-- Squared Euclidean distance between two centroids
(`p1_centroid.distance(p2_centroid)` squared). -/
def distSq (a b : ℚ × ℚ) : ℚ :=
  (a.1 - b.1) ^ 2 + (a.2 - b.2) ^ 2

/-- Square of the `max_distance` double loop
(territory_analyzer.py:221-230): the maximum over all pairs of the squared
centroid distance, starting from `0.0`. -/
def maxPairDistSq : List Polygon → ℚ
  | [] => 0
  | p :: ps =>
    ps.foldl (fun m q => max m (distSq p.centroid q.centroid)) (maxPairDistSq ps)

/-- Embedding of `TerritoryAnalyzer.analyze` (territory_analyzer.py:157-253), with
`threshold` standing for `self.main_area_threshold`.

* Single `Polygon` input: the literal `CONTINUOUS` result of lines 171-188.
* `MultiPolygon` input: lines 190-253.  An empty `MultiPolygon` raises
  `IndexError` at `polygons[sorted_indices[0]]`; a zero `total_area` raises
  `ZeroDivisionError` at the percentage division; otherwise the result
  record is built (through the dataclass constructor, i.e. through
  `__post_init__`). -/
def analyze (threshold : ℚ) (countryName : String) (g : Geometry) :
    Except AnalyzeError TerritoryAnalysisResult :=
  match g with
  | .poly p =>
    .ok (mkTerritoryAnalysisResult countryName .CONTINUOUS p.area p.area 100 1 0
      [⟨p.area, 100, p.centroid⟩])
  | .multi ps =>
    match sortedPolys ps with
    | [] => .error .indexError
    | mainPolygon :: rest =>
      let total := totalArea ps
      if total = 0 then .error .zeroDivisionError
      else
        let mainPct := mainPolygon.area / total * 100
        let terrs := (mainPolygon :: rest).map
          (fun p => (⟨p.area, p.area / total * 100, p.centroid⟩ : TerritoryInfo))
        let gtype : CountryGeometryType :=
          if ps.length = 1 then .CONTINUOUS
          else if mainPct ≥ threshold * 100 then .HAS_EXCLAVE
          else .ISLAND_NATION
        .ok (mkTerritoryAnalysisResult countryName gtype total mainPolygon.area
          mainPct ps.length (maxPairDistSq ps) terrs)

/-- The geometry-type check of `load_country_geometry`
(territory_analyzer.py:122-125): `if not isinstance(geometry, (Polygon,
MultiPolygon)): raise TypeError(...)`. -/
def checkGeometryType : RawGeometry → Except AnalyzeError Geometry
  | .poly p => .ok (.poly p)
  | .multi ps => .ok (.multi ps)
  | .point _ => .error .geometryTypeError
  | .collection _ => .error .geometryTypeError

/-- Embedding of `TerritoryAnalyzer.analyze_from_db` (territory_analyzer.py:255-269)
with the database lookup abstracted to the raw geometry it decodes: load
(with the type check) then analyze.  Nothing catches the load error, so it
propagates to the caller. -/
def analyzeFromRaw (threshold : ℚ) (countryName : String) (raw : RawGeometry) :
    Except AnalyzeError TerritoryAnalysisResult :=
  (checkGeometryType raw).bind (analyze threshold countryName)

/-- A rectangular coordinate window `(x_min, y_min, x_max, y_max)`. -/
structure ViewBounds (α : Type) where
  xmin : α
  ymin : α
  xmax : α
  ymax : α
deriving DecidableEq

/-- Embedding of `max(geoms, key=lambda p: p.area)` over a non-empty polygon list
(renderer.py:53): Python's `max` returns the first maximal element, so the
fold replaces the current candidate only on a strictly larger area. -/
def maxByArea (p : Polygon) (ps : List Polygon) : Polygon :=
  ps.foldl (fun m q => if m.area < q.area then q else m) p

/-- The exclave handling of `create_map` (maps/renderer.py:51-55):
`if config.exclude_exclaves and isinstance(target_geom, MultiPolygon)`,
replace the geometry by its largest polygon; any other input is left
unchanged.  (Python's `max` raises on an empty sequence; a zero-polygon
`MultiPolygon` never reaches this code, and the embedding leaves it
unchanged.) -/
def reduceExclaves (excludeExclaves : Bool) : Geometry → Geometry
  | .multi (p :: ps) =>
    if excludeExclaves then .poly (maxByArea p ps) else .multi (p :: ps)
  | g => g

/-- The area-based view bounds of `create_map` (maps/renderer.py:57-88):
square bounds of side `max(width, height) / sqrt(target_percentage)`
centered on the target's bounding-box center.  No aspect-ratio adjustment
is performed in this variant. -/
noncomputable def rendererBounds (xmin ymin xmax ymax targetPercentage : ℝ) :
    ViewBounds ℝ :=
  let targetWidth := xmax - xmin
  let targetHeight := ymax - ymin
  let targetSize := max targetWidth targetHeight
  let centerX := (xmin + xmax) / 2
  let centerY := (ymin + ymax) / 2
  let scaleFactor := 1 / Real.sqrt targetPercentage
  let totalSize := targetSize * scaleFactor
  ⟨centerX - totalSize / 2, centerY - totalSize / 2,
    centerX + totalSize / 2, centerY + totalSize / 2⟩

/-- The buffer-factor view bounds of `create_map` (src/draw_map.py:249-290):
`buffer_factor = (1 / target_percentage - 1) / 2` applied to the larger
bounding-box dimension, followed by the aspect-ratio adjustment that
expands the shorter view dimension until `view_width / view_height`
matches `aspect` (`config.figsize[0] / config.figsize[1]`). -/
def drawMapBounds {α : Type} [LinearOrderedField α]
    (xmin ymin xmax ymax targetPercentage aspect : α) : ViewBounds α :=
  let centerX := (xmin + xmax) / 2
  let centerY := (ymin + ymax) / 2
  let targetWidth := xmax - xmin
  let targetHeight := ymax - ymin
  let targetSize := max targetWidth targetHeight
  let bufferFactor := (1 / targetPercentage - 1) / 2
  let targetBuffer := targetSize * bufferFactor
  let viewXMin := centerX - targetSize / 2 - targetBuffer
  let viewYMin := centerY - targetSize / 2 - targetBuffer
  let viewXMax := centerX + targetSize / 2 + targetBuffer
  let viewYMax := centerY + targetSize / 2 + targetBuffer
  let viewWidth := viewXMax - viewXMin
  let viewHeight := viewYMax - viewYMin
  if viewWidth / viewHeight > aspect then
    let extraHeight := viewWidth / aspect - viewHeight
    ⟨viewXMin, viewYMin - extraHeight / 2, viewXMax, viewYMax + extraHeight / 2⟩
  else
    let extraWidth := viewHeight * aspect - viewWidth
    ⟨viewXMin - extraWidth / 2, viewYMin, viewXMax + extraWidth / 2, viewYMax⟩

/-- Width of a bounds window. -/
def ViewBounds.width {α : Type} [LinearOrderedField α] (b : ViewBounds α) : α :=
  b.xmax - b.xmin

/-- Height of a bounds window. -/
def ViewBounds.height {α : Type} [LinearOrderedField α] (b : ViewBounds α) : α :=
  b.ymax - b.ymin

/-- The `isinstance(geometry, (Polygon, MultiPolygon))` test of
`load_country_geometry` (territory_analyzer.py:122). -/
def RawGeometry.isPolygonal : RawGeometry → Bool
  | .poly _ => true
  | .multi _ => true
  | .point _ => false
  | .collection _ => false

/-- The classification outcome of an analysis, for stating concrete
classification facts. -/
def classType (threshold : ℚ) (g : Geometry) :
    Except AnalyzeError CountryGeometryType :=
  (analyze threshold ("TestCountry") g).map TerritoryAnalysisResult.geometry_type

/-- The polygon `maxByArea p ps` is one of the polygons `p :: ps`. -/
lemma maxByArea_mem : ∀ (ps : List Polygon) (p : Polygon),
    maxByArea p ps ∈ p :: ps
  | [], p => by simp [maxByArea]
  | q :: qs, p => by
    have step : maxByArea p (q :: qs)
        = maxByArea (if p.area < q.area then q else p) qs := rfl
    rw [step]
    rcases List.mem_cons.mp (maxByArea_mem qs (if p.area < q.area then q else p))
      with h1 | h1
    · rw [h1]; split_ifs <;> simp
    · simp [h1]

/-- Every polygon of `p :: ps` has area at most that of `maxByArea p ps`. -/
lemma le_maxByArea : ∀ (ps : List Polygon) (p r : Polygon),
    r ∈ p :: ps → r.area ≤ (maxByArea p ps).area
  | [], p, r, hr => by
    simp only [List.mem_singleton] at hr
    simp [maxByArea, hr]
  | q :: qs, p, r, hr => by
    have step : maxByArea p (q :: qs)
        = maxByArea (if p.area < q.area then q else p) qs := rfl
    rw [step]
    have key := le_maxByArea qs (if p.area < q.area then q else p)
    rcases List.mem_cons.mp hr with h1 | h1
    · subst h1
      by_cases hpq : r.area < q.area
      · exact le_trans (le_of_lt hpq) (key q (by simp [hpq]))
      · exact key r (by simp [hpq])
    · rcases List.mem_cons.mp h1 with h2 | h2
      · subst h2
        by_cases hpq : p.area < r.area
        · exact key r (by simp [hpq])
        · exact le_trans (not_lt.mp hpq) (key p (by simp [hpq]))
      · exact key r (List.mem_cons_of_mem _ h2)

/-- Claim C6: on a multi-fragment geometry the exclave reduction of
`create_map` (maps/renderer.py:51-55) always returns a single polygon,
namely a fragment of maximal area among the fragments; on a single-polygon
geometry (fragment count 1) it is a no-op returning the original
geometry. -/
theorem reduceExclaves_single_fragment (p : Polygon) (ps : List Polygon)
    (_hmulti : ps ≠ []) :
    (∃ q, reduceExclaves true (.multi (p :: ps)) = .poly q ∧ q ∈ p :: ps ∧
      ∀ r ∈ p :: ps, r.area ≤ q.area) ∧
    (∀ q : Polygon, reduceExclaves true (.poly q) = .poly q) :=
  ⟨⟨maxByArea p ps, by simp [reduceExclaves], maxByArea_mem ps p,
      fun r hr => le_maxByArea ps p r hr⟩,
    fun _ => rfl⟩

/-- Witness for C6 at the two-fragment geometry with areas 1 and 2. -/
theorem reduceExclaves_single_fragment_witness :
    ([⟨2, (1, 1)⟩] : List Polygon) ≠ [] ∧
    ((∃ q, reduceExclaves true (.multi [⟨1, (0, 0)⟩, ⟨2, (1, 1)⟩]) = .poly q ∧
        q ∈ [(⟨1, (0, 0)⟩ : Polygon), ⟨2, (1, 1)⟩] ∧
        ∀ r ∈ [(⟨1, (0, 0)⟩ : Polygon), ⟨2, (1, 1)⟩], r.area ≤ q.area) ∧
      (∀ q : Polygon, reduceExclaves true (.poly q) = .poly q)) :=
  ⟨by decide, reduceExclaves_single_fragment ⟨1, (0, 0)⟩ [⟨2, (1, 1)⟩] (by decide)⟩

/-- Claim C10: `TerritoryAnalysisResult.__post_init__`
(territory_analyzer.py:69-73) silently replaces a `main_polygon_area` of
`0.0` by `total_area`, so no constructed result has a zero main-fragment
area together with a nonzero total area. -/
theorem post_init_zero_main_replaced (name : String) (gt : CountryGeometryType)
    (total mainArea mainPct : ℚ) (count : ℕ) (maxDistSq : ℚ)
    (terrs : List TerritoryInfo) :
    (mkTerritoryAnalysisResult name gt total 0 mainPct count maxDistSq
        terrs).main_polygon_area = total ∧
    ((mkTerritoryAnalysisResult name gt total mainArea mainPct count maxDistSq
        terrs).main_polygon_area = 0 →
      (mkTerritoryAnalysisResult name gt total mainArea mainPct count maxDistSq
        terrs).total_area = 0) := by
  constructor
  · simp [mkTerritoryAnalysisResult]
  · by_cases h : mainArea = 0 <;> simp [mkTerritoryAnalysisResult, h]

/-- Witness for C10 at `total_area = 5`, `main_polygon_area = 0`. -/
theorem post_init_zero_main_replaced_witness :
    (mkTerritoryAnalysisResult ("A") .CONTINUOUS 5 0 100 1 0
        []).main_polygon_area = 5 ∧
    ((mkTerritoryAnalysisResult ("A") .CONTINUOUS 5 0 100 1 0
        []).main_polygon_area = 0 →
      (mkTerritoryAnalysisResult ("A") .CONTINUOUS 5 0 100 1 0
        []).total_area = 0) :=
  post_init_zero_main_replaced ("A") .CONTINUOUS 5 0 100 1 0 []

/-- Claim C2: `TerritoryAnalyzer.analyze` on a single polygon
(territory_analyzer.py:171-188) always returns `CONTINUOUS` with
`polygon_count = 1`, `main_polygon_percentage = 100.0` and a maximum
pairwise centroid distance of `0.0`. -/
theorem analyze_single_polygon_continuous (threshold : ℚ) (name : String)
    (p : Polygon) :
    ∃ r, analyze threshold name (.poly p) = .ok r ∧
      r.geometry_type = .CONTINUOUS ∧
      r.polygon_count = 1 ∧
      r.main_polygon_percentage = 100 ∧
      r.max_distance_between_polygons_sq = 0 :=
  ⟨_, rfl, rfl, rfl, rfl, rfl⟩

/-- Claim C9: the loading-and-analysis pipeline fails with the geometry
type error (`raise TypeError("Expected Polygon or MultiPolygon, ...")`,
territory_analyzer.py:122-125) on every raw geometry that is neither a
polygon nor a multi-polygon, and nothing catches it. -/
theorem analyzeFromRaw_type_error (threshold : ℚ) (name : String)
    (raw : RawGeometry) (h : raw.isPolygonal = false) :
    analyzeFromRaw threshold name raw = .error .geometryTypeError := by
  cases raw with
  | poly p => simp [RawGeometry.isPolygonal] at h
  | multi ps => simp [RawGeometry.isPolygonal] at h
  | point c => rfl
  | collection gs => rfl

/-- Witness for C9 at a `Point` raw geometry. -/
theorem analyzeFromRaw_type_error_witness :
    (RawGeometry.point (0, 0)).isPolygonal = false ∧
    analyzeFromRaw (8/10) "P" (RawGeometry.point (0, 0))
      = .error .geometryTypeError :=
  ⟨by decide, analyzeFromRaw_type_error (8/10) "P" _ (by decide)⟩

/-- Sorting preserves the polygon multiset. -/
lemma sortedPolys_perm (ps : List Polygon) : List.Perm (sortedPolys ps) ps :=
  List.perm_insertionSort areaDesc ps

/-- The list `sortedPolys ps` is empty only for an empty input. -/
lemma sortedPolys_eq_nil {ps : List Polygon} (h : sortedPolys ps = []) :
    ps = [] :=
  List.eq_nil_of_length_eq_zero
    (by simpa [h] using (sortedPolys_perm ps).length_eq.symm)

/-- The sum of nonnegative areas is nonnegative. -/
lemma totalArea_nonneg {ps : List Polygon} (h : ∀ p ∈ ps, 0 ≤ p.area) :
    0 ≤ totalArea ps := by
  refine List.sum_nonneg ?_
  intro a ha
  rcases List.mem_map.mp ha with ⟨p, hp, rfl⟩
  exact h p hp

/-- Claim C5 (amended): on a non-empty multi-fragment geometry whose
fragment areas are all nonnegative (as shapely areas are) and whose total
area is `≤ 0`, `analyze` fails with the `ZeroDivisionError` raised by the
percentage division (territory_analyzer.py:202) — it never returns a
zero-area or NaN result. -/
theorem analyze_zero_total_area_fails (threshold : ℚ) (name : String)
    (ps : List Polygon) (hne : ps ≠ []) (hnn : ∀ p ∈ ps, 0 ≤ p.area)
    (hle : totalArea ps ≤ 0) :
    analyze threshold name (.multi ps) = .error .zeroDivisionError := by
  have htot : totalArea ps = 0 := le_antisymm hle (totalArea_nonneg hnn)
  cases hsp : sortedPolys ps with
  | nil => exact absurd (sortedPolys_eq_nil hsp) hne
  | cons main rest => simp [analyze, hsp, htot]

/-- Witness for C5 at a two-fragment geometry whose fragments both have
area `0`. -/
theorem analyze_zero_total_area_fails_witness :
    ([⟨0, (0, 0)⟩, ⟨0, (1, 1)⟩] : List Polygon) ≠ [] ∧
    (∀ p ∈ ([⟨0, (0, 0)⟩, ⟨0, (1, 1)⟩] : List Polygon), 0 ≤ p.area) ∧
    totalArea [⟨0, (0, 0)⟩, ⟨0, (1, 1)⟩] ≤ 0 ∧
    analyze (8/10) "Z" (.multi [⟨0, (0, 0)⟩, ⟨0, (1, 1)⟩])
      = .error .zeroDivisionError :=
  ⟨by simp, by simp, by norm_num [totalArea],
    analyze_zero_total_area_fails (8/10) "Z" _ (by simp) (by simp)
      (by norm_num [totalArea])⟩

/-- Counterexample for C5 as stated: on the all-zero-area two-fragment
geometry the analyzer raises `ZeroDivisionError`, not the specification's
`DegenerateGeometryError` (no such typed error exists in the code). -/
theorem analyze_zero_total_not_degenerate_error :
    analyze (8/10) "Z" (.multi [⟨0, (0, 0)⟩, ⟨0, (1, 1)⟩])
      = .error .zeroDivisionError ∧
    analyze (8/10) "Z" (.multi [⟨0, (0, 0)⟩, ⟨0, (1, 1)⟩])
      ≠ .error .degenerateGeometryError := by
  have hz : analyze (8/10) "Z" (.multi [⟨0, (0, 0)⟩, ⟨0, (1, 1)⟩])
      = .error .zeroDivisionError := by
    norm_num [analyze, sortedPolys, List.insertionSort, List.orderedInsert,
      areaDesc, totalArea]
  exact ⟨hz, by rw [hz]; simp⟩

/-- On a multi-polygon whose sorted fragment list is `main :: rest` and
whose total area is nonzero, `analyze` returns the record built at
territory_analyzer.py:244-253. -/
lemma analyze_multi_ok (threshold : ℚ) (name : String) (ps : List Polygon)
    (main : Polygon) (rest : List Polygon) (hsp : sortedPolys ps = main :: rest)
    (hT : totalArea ps ≠ 0) :
    analyze threshold name (.multi ps) = .ok (mkTerritoryAnalysisResult name
      (if ps.length = 1 then .CONTINUOUS
       else if main.area / totalArea ps * 100 ≥ threshold * 100 then .HAS_EXCLAVE
       else .ISLAND_NATION)
      (totalArea ps) main.area (main.area / totalArea ps * 100) ps.length
      (maxPairDistSq ps)
      ((main :: rest).map
        (fun p => (⟨p.area, p.area / totalArea ps * 100, p.centroid⟩ :
          TerritoryInfo)))) := by
  simp only [analyze, hsp]
  simp [hT]

/-- The two-fragment list with areas 100 and 25 used by the specification's
threshold example (main share exactly 80%). -/
def exampleFragments : List Polygon :=
  [⟨100, (5, 5)⟩, ⟨25, (45/2, 5/2)⟩]

/-- The example geometry as a multi-polygon. -/
def exampleMulti : Geometry := .multi exampleFragments

/-- The analysis result of `exampleFragments` at threshold `0.8`. -/
def exampleResult : TerritoryAnalysisResult :=
  { country_name := "TestCountry"
    geometry_type := .HAS_EXCLAVE
    total_area := 125
    main_polygon_area := 100
    main_polygon_percentage := 80
    polygon_count := 2
    max_distance_between_polygons_sq := 625/2
    separate_territories := [⟨100, 80, (5, 5)⟩, ⟨25, 20, (45/2, 5/2)⟩] }

/-- Evaluating the analyzer on the example geometry at threshold `0.8`. -/
lemma analyze_exampleFragments :
    analyze (8/10) "TestCountry" (.multi exampleFragments) = .ok exampleResult := by
  norm_num [analyze, exampleFragments, exampleResult, sortedPolys,
    List.insertionSort, List.orderedInsert, areaDesc, totalArea,
    mkTerritoryAnalysisResult, maxPairDistSq, distSq]

/-- Claim C1: on a multi-fragment geometry (at least two fragments) with
positive total area, for any threshold in `(0, 1]`, `analyze`
(territory_analyzer.py:232-241) classifies `HAS_EXCLAVE` exactly when the
main fragment's percentage is at least `threshold * 100` and
`ISLAND_NATION` otherwise; in particular the two-fragment geometry with
areas 100 and 25 (main share exactly 80%) classifies `HAS_EXCLAVE` at
thresholds 0.8 and 0.7 and `ISLAND_NATION` at threshold 0.9. -/
theorem analyze_threshold_dichotomy (threshold : ℚ) (name : String)
    (ps : List Polygon) (h2 : 2 ≤ ps.length) (hpos : 0 < totalArea ps)
    (_ht0 : 0 < threshold) (_ht1 : threshold ≤ 1)
    (r : TerritoryAnalysisResult)
    (hr : analyze threshold name (.multi ps) = .ok r) :
    ((r.geometry_type = .HAS_EXCLAVE ↔
        threshold * 100 ≤ r.main_polygon_percentage) ∧
      (r.geometry_type = .ISLAND_NATION ↔
        r.main_polygon_percentage < threshold * 100)) ∧
    classType (8/10) exampleMulti = .ok .HAS_EXCLAVE ∧
    classType (7/10) exampleMulti = .ok .HAS_EXCLAVE ∧
    classType (9/10) exampleMulti = .ok .ISLAND_NATION := by
  refine ⟨?_, ?_, ?_, ?_⟩
  · cases hsp : sortedPolys ps with
    | nil =>
      rw [sortedPolys_eq_nil hsp] at h2
      simp at h2
    | cons main rest =>
      rw [analyze_multi_ok threshold name ps main rest hsp (ne_of_gt hpos)] at hr
      obtain rfl : _ = r := Except.ok.inj hr
      have hlen : ps.length ≠ 1 := by omega
      by_cases hge : main.area / totalArea ps * 100 ≥ threshold * 100
      · constructor
        · simp [mkTerritoryAnalysisResult, hlen, hge]
        · simp [mkTerritoryAnalysisResult, hlen, hge, not_lt.mpr hge]
      · constructor
        · simp [mkTerritoryAnalysisResult, hlen, hge]
        · simp [mkTerritoryAnalysisResult, hlen, hge, not_le.mp hge]
  · simp only [classType, exampleMulti]
    rw [analyze_exampleFragments]
    simp [exampleResult, Except.map]
  · norm_num [classType, exampleMulti, analyze, exampleFragments, sortedPolys,
      List.insertionSort, List.orderedInsert, areaDesc, totalArea,
      mkTerritoryAnalysisResult, Except.map]
  · norm_num [classType, exampleMulti, analyze, exampleFragments, sortedPolys,
      List.insertionSort, List.orderedInsert, areaDesc, totalArea,
      mkTerritoryAnalysisResult, Except.map]

/-- Witness for C1 at the 100/25 example geometry and threshold 0.8. -/
theorem analyze_threshold_dichotomy_witness :
    (2 ≤ exampleFragments.length ∧ 0 < totalArea exampleFragments ∧
      0 < (8/10 : ℚ) ∧ (8/10 : ℚ) ≤ 1 ∧
      analyze (8/10) "TestCountry" (.multi exampleFragments)
        = .ok exampleResult) ∧
    ((exampleResult.geometry_type = .HAS_EXCLAVE ↔
        (8/10 : ℚ) * 100 ≤ exampleResult.main_polygon_percentage) ∧
      (exampleResult.geometry_type = .ISLAND_NATION ↔
        exampleResult.main_polygon_percentage < (8/10 : ℚ) * 100)) ∧
    classType (8/10) exampleMulti = .ok .HAS_EXCLAVE ∧
    classType (7/10) exampleMulti = .ok .HAS_EXCLAVE ∧
    classType (9/10) exampleMulti = .ok .ISLAND_NATION :=
  ⟨⟨by norm_num [exampleFragments], by norm_num [totalArea, exampleFragments],
      by norm_num, by norm_num, analyze_exampleFragments⟩,
    (analyze_threshold_dichotomy (8/10) "TestCountry" exampleFragments
      (by norm_num [exampleFragments]) (by norm_num [totalArea, exampleFragments])
      (by norm_num) (by norm_num) exampleResult analyze_exampleFragments).1,
    ((analyze_threshold_dichotomy (8/10) "TestCountry" exampleFragments
      (by norm_num [exampleFragments]) (by norm_num [totalArea, exampleFragments])
      (by norm_num) (by norm_num) exampleResult analyze_exampleFragments).2)⟩

/-- Distributing the sum over the percentage formula
`(area / total_area) * 100.0`. -/
lemma sum_map_pct (qs : List Polygon) (T : ℚ) :
    (qs.map (fun p => p.area / T * 100)).sum = (qs.map Polygon.area).sum / T * 100 := by
  induction qs with
  | nil => simp
  | cons q qs ih =>
    simp only [List.map_cons, List.sum_cons, ih]
    ring

/-- Claim C3: whenever `analyze` returns a result, the fragment
percentages sum to exactly 100, the `separate_territories` sequence is
sorted by area descending, `main_polygon_percentage` equals the first
territory's percentage, and `polygon_count` equals the number of
territories (territory_analyzer.py:194-218 and 244-253). -/
theorem analyze_result_invariants (threshold : ℚ) (name : String)
    (g : Geometry) (r : TerritoryAnalysisResult)
    (hr : analyze threshold name g = .ok r) :
    (r.separate_territories.map TerritoryInfo.percentage).sum = 100 ∧
    r.separate_territories.Pairwise (fun u v => v.area ≤ u.area) ∧
    (∃ t0 ts, r.separate_territories = t0 :: ts ∧
      r.main_polygon_percentage = t0.percentage) ∧
    r.polygon_count = r.separate_territories.length := by
  cases g with
  | poly p =>
    obtain rfl : _ = r := Except.ok.inj hr
    refine ⟨by simp [mkTerritoryAnalysisResult], by simp [mkTerritoryAnalysisResult],
      ⟨⟨p.area, 100, p.centroid⟩, [], by simp [mkTerritoryAnalysisResult], rfl⟩,
      by simp [mkTerritoryAnalysisResult]⟩
  | multi ps =>
    cases hsp : sortedPolys ps with
    | nil => simp [analyze, hsp] at hr
    | cons main rest =>
      by_cases hT : totalArea ps = 0
      · simp [analyze, hsp, hT] at hr
      · rw [analyze_multi_ok threshold name ps main rest hsp hT] at hr
        obtain rfl : _ = r := Except.ok.inj hr
        have hperm : List.Perm (main :: rest) ps := hsp ▸ sortedPolys_perm ps
        refine ⟨?_, ?_, ?_, ?_⟩
        · have hsum : ((main :: rest).map Polygon.area).sum
              = (ps.map Polygon.area).sum := (hperm.map Polygon.area).sum_eq
          simp only [mkTerritoryAnalysisResult, List.map_map]
          have : ((main :: rest).map
              ((fun t : TerritoryInfo => t.percentage) ∘
                fun p => (⟨p.area, p.area / totalArea ps * 100, p.centroid⟩ :
                  TerritoryInfo)))
              = (main :: rest).map (fun p => p.area / totalArea ps * 100) := rfl
          rw [this, sum_map_pct, hsum]
          show totalArea ps / totalArea ps * 100 = 100
          rw [div_self hT, one_mul]
        · have hs : List.Sorted areaDesc (sortedPolys ps) :=
            List.sorted_insertionSort areaDesc ps
          rw [hsp] at hs
          simp only [mkTerritoryAnalysisResult]
          exact hs.map _ (fun a b hab => hab)
        · exact ⟨⟨main.area, main.area / totalArea ps * 100, main.centroid⟩,
            rest.map (fun p => (⟨p.area, p.area / totalArea ps * 100,
              p.centroid⟩ : TerritoryInfo)),
            by simp [mkTerritoryAnalysisResult], rfl⟩
        · have hlen : (main :: rest).length = ps.length := by
            rw [← hsp]
            exact (sortedPolys_perm ps).length_eq
          simp only [mkTerritoryAnalysisResult, List.length_map]
          exact hlen.symm

/-- Witness for C3 at the 100/25 example geometry. -/
theorem analyze_result_invariants_witness :
    analyze (8/10) "TestCountry" (.multi exampleFragments) = .ok exampleResult ∧
    ((exampleResult.separate_territories.map TerritoryInfo.percentage).sum = 100 ∧
      exampleResult.separate_territories.Pairwise (fun u v => v.area ≤ u.area) ∧
      (∃ t0 ts, exampleResult.separate_territories = t0 :: ts ∧
        exampleResult.main_polygon_percentage = t0.percentage) ∧
      exampleResult.polygon_count = exampleResult.separate_territories.length) :=
  ⟨analyze_exampleFragments,
    analyze_result_invariants (8/10) "TestCountry" (.multi exampleFragments)
      exampleResult analyze_exampleFragments⟩

/-- Claim C4: the view bounds computed by `create_map`
(src/draw_map.py:249-290) always contain the target's bounding box, and
after the aspect-ratio adjustment the width/height ratio equals the image
aspect ratio exactly. -/
theorem drawMapBounds_contains_and_aspect {α : Type} [LinearOrderedField α]
    (xmin ymin xmax ymax tp aspect : α)
    (htp0 : 0 < tp) (htp1 : tp ≤ 1) (hasp : 0 < aspect)
    (hw : xmin < xmax) (hh : ymin < ymax) :
    (drawMapBounds xmin ymin xmax ymax tp aspect).xmin ≤ xmin ∧
    (drawMapBounds xmin ymin xmax ymax tp aspect).ymin ≤ ymin ∧
    xmax ≤ (drawMapBounds xmin ymin xmax ymax tp aspect).xmax ∧
    ymax ≤ (drawMapBounds xmin ymin xmax ymax tp aspect).ymax ∧
    0 < (drawMapBounds xmin ymin xmax ymax tp aspect).height ∧
    (drawMapBounds xmin ymin xmax ymax tp aspect).width /
      (drawMapBounds xmin ymin xmax ymax tp aspect).height = aspect := by
  have hB : 1 ≤ 1 / tp := by
    rw [le_div_iff₀ htp0]
    simpa using htp1
  have htw0 : (0 : α) < xmax - xmin := sub_pos.mpr hw
  have hth0 : (0 : α) < ymax - ymin := sub_pos.mpr hh
  simp only [drawMapBounds, ViewBounds.width, ViewBounds.height]
  set s := max (xmax - xmin) (ymax - ymin) with hsdef
  have hs0 : 0 < s := lt_of_lt_of_le htw0 (le_max_left _ _)
  have hstw : xmax - xmin ≤ s := le_max_left _ _
  have hsth : ymax - ymin ≤ s := le_max_right _ _
  set b := s * ((1 / tp - 1) / 2) with hbdef
  have hb0 : 0 ≤ b := by
    rw [hbdef]
    exact mul_nonneg hs0.le (div_nonneg (sub_nonneg.mpr hB) (by norm_num))
  set cx := (xmin + xmax) / 2 with hcxdef
  set cy := (ymin + ymax) / 2 with hcydef
  set vxmin := cx - s / 2 - b with hvxmin
  set vymin := cy - s / 2 - b with hvymin
  set vxmax := cx + s / 2 + b with hvxmax
  set vymax := cy + s / 2 + b with hvymax
  have hV : vxmax - vxmin = s + 2 * b := by rw [hvxmax, hvxmin]; ring
  have hVy : vymax - vymin = s + 2 * b := by rw [hvymax, hvymin]; ring
  have hV0 : 0 < s + 2 * b := by linarith
  have hxminle : vxmin ≤ xmin := by
    rw [hvxmin, hcxdef]
    linarith
  have hyminle : vymin ≤ ymin := by
    rw [hvymin, hcydef]
    linarith
  have hxmaxle : xmax ≤ vxmax := by
    rw [hvxmax, hcxdef]
    linarith
  have hymaxle : ymax ≤ vymax := by
    rw [hvymax, hcydef]
    linarith
  have hH : vymax + ((s + 2 * b) / aspect - (s + 2 * b)) / 2 -
      (vymin - ((s + 2 * b) / aspect - (s + 2 * b)) / 2)
      = (s + 2 * b) / aspect := by
    rw [hvymax, hvymin]
    ring
  have hW : vxmax + ((s + 2 * b) * aspect - (s + 2 * b)) / 2 -
      (vxmin - ((s + 2 * b) * aspect - (s + 2 * b)) / 2)
      = (s + 2 * b) * aspect := by
    rw [hvxmax, hvxmin]
    ring
  clear_value s b cx cy vxmin vymin vxmax vymax
  clear hsdef hbdef hcxdef hcydef hvxmin hvymin hvxmax hvymax
  rw [hV, hVy, div_self (ne_of_gt hV0)]
  split_ifs with hcond
  · -- the view is too wide for the image: the height is expanded
    have he0 : 0 ≤ (s + 2 * b) / aspect - (s + 2 * b) := by
      rw [sub_nonneg, le_div_iff₀ hasp]
      nlinarith [mul_pos hV0 hasp]
    refine ⟨hxminle, ?_, hxmaxle, ?_, ?_, ?_⟩
    · dsimp only
      linarith
    · dsimp only
      linarith
    · dsimp only
      rw [hH]
      exact div_pos hV0 hasp
    · dsimp only
      rw [hV, hH, div_div_eq_mul_div, mul_comm, mul_div_assoc,
        div_self (ne_of_gt hV0), mul_one]
  · -- the view is too tall for the image: the width is expanded
    have h1a : 1 ≤ aspect := not_lt.mp hcond
    have he0 : 0 ≤ (s + 2 * b) * aspect - (s + 2 * b) := by
      linarith [mul_nonneg hV0.le (sub_nonneg.mpr h1a)]
    refine ⟨?_, hyminle, ?_, hymaxle, ?_, ?_⟩
    · dsimp only
      linarith
    · dsimp only
      linarith
    · dsimp only
      rw [hVy]
      exact hV0
    · dsimp only
      rw [hVy, hW, mul_comm, mul_div_assoc, div_self (ne_of_gt hV0), mul_one]

/-- Witness for C4 at the bounding box `(0, 0, 2, 1)`, fraction `1/2`,
aspect ratio `3/2`, over `ℚ`. -/
theorem drawMapBounds_contains_and_aspect_witness :
    (0 < (1/2 : ℚ) ∧ (1/2 : ℚ) ≤ 1 ∧ 0 < (3/2 : ℚ) ∧
      (0 : ℚ) < 2 ∧ (0 : ℚ) < 1) ∧
    ((drawMapBounds (0 : ℚ) 0 2 1 (1/2) (3/2)).xmin ≤ 0 ∧
      (drawMapBounds (0 : ℚ) 0 2 1 (1/2) (3/2)).ymin ≤ 0 ∧
      2 ≤ (drawMapBounds (0 : ℚ) 0 2 1 (1/2) (3/2)).xmax ∧
      1 ≤ (drawMapBounds (0 : ℚ) 0 2 1 (1/2) (3/2)).ymax ∧
      0 < (drawMapBounds (0 : ℚ) 0 2 1 (1/2) (3/2)).height ∧
      (drawMapBounds (0 : ℚ) 0 2 1 (1/2) (3/2)).width /
        (drawMapBounds (0 : ℚ) 0 2 1 (1/2) (3/2)).height = 3/2) :=
  ⟨⟨by norm_num, by norm_num, by norm_num, by norm_num, by norm_num⟩,
    drawMapBounds_contains_and_aspect 0 0 2 1 (1/2) (3/2) (by norm_num)
      (by norm_num) (by norm_num) (by norm_num) (by norm_num)⟩

/-- The width of the renderer's square view window. -/
lemma rendererBounds_width (xmin ymin xmax ymax f : ℝ) :
    (rendererBounds xmin ymin xmax ymax f).width
      = max (xmax - xmin) (ymax - ymin) * (1 / Real.sqrt f) := by
  simp only [rendererBounds, ViewBounds.width]
  ring

/-- The height of the renderer's square view window. -/
lemma rendererBounds_height (xmin ymin xmax ymax f : ℝ) :
    (rendererBounds xmin ymin xmax ymax f).height
      = max (xmax - xmin) (ymax - ymin) * (1 / Real.sqrt f) := by
  simp only [rendererBounds, ViewBounds.height]
  ring

/-- Claim C7: for the area-based framing of `create_map`
(maps/renderer.py:62-88), halving `target_percentage` multiplies the view
side length by `sqrt 2`; the view is square; and at `target_percentage = 1`
the side length equals the longer bounding-box dimension. -/
theorem rendererBounds_scale_law (xmin ymin xmax ymax f : ℝ) (hf : 0 < f) :
    ((rendererBounds xmin ymin xmax ymax (f/2)).width
        = Real.sqrt 2 * (rendererBounds xmin ymin xmax ymax f).width) ∧
    (rendererBounds xmin ymin xmax ymax f).width
        = (rendererBounds xmin ymin xmax ymax f).height ∧
    (rendererBounds xmin ymin xmax ymax 1).width
        = max (xmax - xmin) (ymax - ymin) := by
  refine ⟨?_, ?_, ?_⟩
  · rw [rendererBounds_width, rendererBounds_width, Real.sqrt_div hf.le,
      one_div_div]
    ring
  · rw [rendererBounds_width, rendererBounds_height]
  · rw [rendererBounds_width, Real.sqrt_one]
    norm_num

/-- Witness for C7 at the bounding box `(0, 0, 2, 1)` and fraction 1. -/
theorem rendererBounds_scale_law_witness :
    (0 : ℝ) < 1 ∧
    (((rendererBounds 0 0 2 1 (1/2)).width
        = Real.sqrt 2 * (rendererBounds 0 0 2 1 1).width) ∧
      (rendererBounds 0 0 2 1 1).width = (rendererBounds 0 0 2 1 1).height ∧
      (rendererBounds 0 0 2 1 1).width = max (2 - 0) (1 - 0)) :=
  ⟨by norm_num, rendererBounds_scale_law 0 0 2 1 1 (by norm_num)⟩

/-- Claim C8: the two bounds-computation variants are not equivalent: at
the unit bounding box and `target_percentage = 1/4` (square image aspect,
so the draw_map aspect adjustment is the identity), the area-based formula
(maps/renderer.py:73-88) and the buffer-factor formula
(src/draw_map.py:261-268) produce different view bounds. -/
theorem bounds_formulas_inequivalent :
    ∃ tp : ℝ, 0 < tp ∧ tp < 1 ∧
      rendererBounds 0 0 1 1 tp ≠ drawMapBounds (0 : ℝ) 0 1 1 tp 1 := by
  refine ⟨1/4, by norm_num, by norm_num, fun hEq => ?_⟩
  have hs : Real.sqrt (1/4) = 1/2 := by
    rw [show (1/4 : ℝ) = (1/2)^2 by norm_num,
      Real.sqrt_sq (by norm_num : (0:ℝ) ≤ 1/2)]
  have h1 : (rendererBounds 0 0 1 1 (1/4)).xmax = 3/2 := by
    simp only [rendererBounds]
    rw [hs]
    norm_num
  have h2 : (drawMapBounds (0 : ℝ) 0 1 1 (1/4) 1).xmax = 5/2 := by
    norm_num [drawMapBounds]
  rw [hEq, h2] at h1
  norm_num at h1
